import Mathlib

/-!
Verification of `sysutil.py` (a psutil-based system information reporter).

The script is a sequence of stateless report sections, each printing lines
to stdout.  We embed it shallowly: each section becomes a Lean function from
a snapshot (the data psutil would return) to the `List String` of lines it
prints.  Reads from the OS that may raise are modelled as `Except String`
values; an exception propagating out of a section is modelled by the
orchestrator returning the lines emitted so far together with `some err`.

Python specifics modelled explicitly:
  * `str` of an integer is re-implemented (`natStr` / `intStr`) so that its
    characters can be reasoned about;
  * `"%02d" % n` is `pyFmt02d` (for width 2, the sign of a negative number
    counts towards the width, so only `0 ≤ n < 10` gets a leading zero);
  * Python `divmod` is floor division, i.e. `Int.ediv` / `Int.emod` for the
    positive divisors used here;
  * dict indexing (`d[k]`, raising `KeyError`) is an association-list
    `List.lookup` returning `Option`; `d.get(k, default)` is the same lookup
    with a default;
  * truthiness of an optional string (`None` and `""` are falsy) is
    `pyTruthyStr`;
  * one-decimal floats produced by psutil (cpu/memory/disk percentages) are
    carried as integer tenths and rendered by `fmt1`; opaque sensor floats
    whose digits no claim inspects are carried as their rendered text.
-/

/-- Decimal digit list of a natural number, fuel-structured so that it
computes by kernel reduction.  `natDigitsF (n+1) n` equals the digits of
Python `str(n)`. -/
def natDigitsF : Nat → Nat → List Char
  | 0, _ => []
  | f + 1, n => if n < 10 then [Nat.digitChar n] else natDigitsF f (n / 10) ++ [Nat.digitChar (n % 10)]

/-- Python `str` of a natural number. -/
def natStr (n : Nat) : String := String.mk (natDigitsF (n + 1) n)

/-- Python `str` of an integer. -/
def intStr : Int → String
  | Int.ofNat n => natStr n
  | Int.negSucc n => "-" ++ natStr (n + 1)

/-- Python `"%d" % n`, identical to `str(n)`. -/
def pyFmtD (n : Int) : String := intStr n

/-- Python `"%02d" % n`: pad to width 2 with zeros; the sign counts towards
the width, so only `0 ≤ n < 10` receives a leading zero. -/
def pyFmt02d (n : Int) : String :=
  if 0 ≤ n ∧ n < 10 then "0" ++ intStr n else intStr n

/-- One-decimal rendering of a value carried as integer tenths (the repr of
the one-decimal floats psutil returns, e.g. `123` ↦ `"12.3"`). -/
def fmt1 (t : Nat) : String := natStr (t / 10) ++ "." ++ natStr (t % 10)

/-- `sysutil.py` line 11: the 80-star banner row. -/
def SECTION_SPAN : String := String.mk (List.replicate 80 '*')

/-- `sysutil.py` line 12: `*` + 78 spaces + `*`. -/
def SPACER : String := "*" ++ String.mk (List.replicate 78 ' ') ++ "*"

def PROGRAM_NAME : String := "*            USING PSUTIL TO RETRIEVE USEFUL SYSTEM INFORMATION                *"

def CPU_INFO : String := "*                               CPU INFORMATION                                *"

def MEMORY_INFO : String := "*                            MEMORY INFORMATION                                *"

def DISK_INFO : String := "*                              DISK INFORMATION                                *"

def NETWORK_INFO : String := "*                           NETWORK INFORMATION                                *"

def CLIMATE_INFO : String := "*                           CLIMATE INFORMATION                                *"

def MEGABYTE : Nat := 1024 * 1024

def GIGABYTE : Nat := 1024 * 1024 * 1024

/-- `af_map` (lines 24-28): address-family code → label, Linux values
(`socket.AF_INET = 2`, `socket.AF_INET6 = 10`, `psutil.AF_LINK = 17`). -/
def af_map : List (Int × String) := [(2, "IPv4"), (10, "IPv6"), (17, "MAC")]

/-- `af_map.get(family, family)` from line 139: a found key yields the label
(`Sum.inl`), any other code passes through unchanged (`Sum.inr`). -/
def afGet (code : Int) : String ⊕ Int :=
  match af_map.lookup code with
  | some l => Sum.inl l
  | none => Sum.inr code

/-- `duplex_map` (lines 30-34): psutil duplex enum → label
(`NIC_DUPLEX_FULL = 2`, `NIC_DUPLEX_HALF = 1`, `NIC_DUPLEX_UNKNOWN = 0`). -/
def duplex_map : List (Int × String) := [(2, "full"), (1, "half"), (0, "?")]

/-- `duplex_map[code]` from line 131: dict indexing, `none` models the
`KeyError` raised on a code outside the map. -/
def duplexIndex (code : Int) : Option String := duplex_map.lookup code

/-- `secs2hours` (lines 152-155): two Python `divmod`s (floor division) and
`"%d:%02d:%02d"`. -/
def secs2hours (secs : Int) : String :=
  let mm := secs.ediv 60
  let ss := secs.emod 60
  let hh := mm.ediv 60
  let mm2 := mm.emod 60
  pyFmtD hh ++ ":" ++ pyFmt02d mm2 ++ ":" ++ pyFmt02d ss

/-- Modelled from the spec: `bytes2human` is imported from
`psutil._common` (line 9), whose source is not part of this repository.
Spec §4.2: scale to the largest binary (1024-based) unit such that the
scaled value is < 1024.  `unitOrderF` computes, fuel-structured, the number
of times `n` can be divided by 1024 before falling below 1024: the unit
order `k` with `1024^k ≤ n < 1024^(k+1)` (and `k = 0` for `n < 1024`). -/
def unitOrderF : Nat → Nat → Nat
  | 0, _ => 0
  | f + 1, n => if n < 1024 then 0 else unitOrderF f (n / 1024) + 1

/-- Unit order of a byte count (spec-modelled, see `unitOrderF`). -/
def unitOrder (n : Nat) : Nat := unitOrderF (n + 1) n

/-- Modelled from the spec: the unit suffix for each order.  Spec §4.2 lists
"B, KB, MB, GB, TB, …"; we continue with the conventional binary ladder and
fall back to an explicit power for orders beyond it. -/
def unitName (k : Nat) : String :=
  (["B", "KB", "MB", "GB", "TB", "PB", "EB", "ZB", "YB"].getD k
    ("2^" ++ natStr (10 * k) ++ "B"))

/-- Modelled from the spec: the scaled value `n / 1024^k` rounded to one
decimal place, carried as integer tenths (nearest, ties away from zero). -/
def humanTenths (n : Nat) : Nat :=
  (20 * n + 1024 ^ unitOrder n) / (2 * 1024 ^ unitOrder n)

/-- Modelled from the spec: `humanizeBytes(n)` — the scaled value with one
decimal place followed by the unit suffix. -/
def humanizeBytes (n : Nat) : String := fmt1 (humanTenths n) ++ unitName (unitOrder n)



/-- Round `a / b` (with `b > 0`) to the nearest integer, ties to even —
Python `round` applied to the exact quotient. -/
def roundHeNat (a b : Nat) : Nat :=
  let q := a / b
  let r := a % b
  if 2 * r < b then q else if b < 2 * r then q + 1 else if q % 2 = 0 then q else q + 1

/-- Python `int(float)` on an exact rational: truncation toward zero. -/
def pyInt (q : ℚ) : Int :=
  if 0 ≤ q then q.num.fdiv q.den else -((-q.num).fdiv q.den)

/-- Python `str` of an optional count (`cpu_count` may return `None`). -/
def optNatStr : Option Nat → String
  | some n => natStr n
  | none => "None"

/-- Truthiness of an optional string field: Python `None` and `""` are
falsy. -/
def pyTruthyStr (o : Option String) : Bool := o.getD "" != ""

def padRightTo (w : Nat) (s : String) : String :=
  s ++ String.mk (List.replicate (w - s.length) ' ')

def padLeftTo (w : Nat) (s : String) : String :=
  String.mk (List.replicate (w - s.length) ' ') ++ s

/-- `f'{af_map.get(addr.family, addr.family):4}'` (line 139): width-4
formatting, strings left-justified, integers right-justified. -/
def afFmt (code : Int) : String :=
  match afGet code with
  | Sum.inl l => padRightTo 4 l
  | Sum.inr c => padLeftTo 4 (intStr c)

/-- `cpu_percent` and friends return one-decimal floats, carried as tenths;
`cpu_count` may return `None`; `cpu_freq` values are floats truncated by
`int(...)` at lines 78-80. -/
structure CpuData where
  aggTenths : Nat
  physCores : Option Nat
  perCoreTenths : List Nat
  coresHT : Option Nat
  freqCur : ℚ
  freqMin : ℚ
  freqMax : ℚ
deriving DecidableEq

/-- Python repr of a list of one-decimal floats, e.g. `"[12.0, 3.5]"`. -/
def listFloatRepr (ts : List Nat) : String :=
  "[" ++ String.intercalate ", " (ts.map fmt1) ++ "]"

/-- `get_cpu_info` (lines 54-83): the lines it prints on a successful
read. -/
def cpuLines (c : CpuData) : List String :=
  [CPU_INFO, SECTION_SPAN,
   "Aggregate CPU usage: " ++ fmt1 c.aggTenths ++ "%",
   "Physical cores:  " ++ optNatStr c.physCores,
   "Individual core usage:  " ++ listFloatRepr c.perCoreTenths ++ "%",
   "Cores including HT:  " ++ optNatStr c.coresHT,
   "Current, min and max CPU MHz: " ++ intStr (pyInt c.freqCur) ++ ", "
     ++ intStr (pyInt c.freqMin) ++ ", " ++ intStr (pyInt c.freqMax),
   SECTION_SPAN]

/-- `virtual_memory()`: percent (one-decimal float, index 2) and available
bytes (index 1). -/
structure MemData where
  pctTenths : Nat
  freeBytes : Nat
deriving DecidableEq

/-- `get_memory_info` (lines 86-98). -/
def memLines (m : MemData) : List String :=
  [MEMORY_INFO, SECTION_SPAN,
   "Memory used:  " ++ fmt1 m.pctTenths ++ "%",
   "Free memory (GB): " ++ fmt1 (roundHeNat (10 * m.freeBytes) GIGABYTE),
   SECTION_SPAN]

/-- `disk_usage('/')`: total bytes (index 0) and percent (one-decimal
float, index 3). -/
structure DiskData where
  totalBytes : Nat
  pctTenths : Nat
deriving DecidableEq

/-- `get_disk_info` (lines 101-111). -/
def diskLines (d : DiskData) : List String :=
  [DISK_INFO, SECTION_SPAN,
   "Disk size (GB): " ++ fmt1 (roundHeNat (10 * d.totalBytes) GIGABYTE),
   "Percent disk used: " ++ fmt1 d.pctTenths,
   SECTION_SPAN]

structure NicStats where
  isup : Bool
  speed : Int
  duplex : Int
  mtu : Int
deriving DecidableEq

structure NicIo where
  bytes_sent : Nat
  bytes_recv : Nat
  packets_sent : Nat
  packets_recv : Nat
  errin : Nat
  errout : Nat
  dropin : Nat
  dropout : Nat
deriving DecidableEq

/-- One `snicaddr`: family code plus address and three optional string
fields (`None` modelled as `none`; an empty string is equally falsy). -/
structure NicAddr where
  family : Int
  address : String
  broadcast : Option String
  netmask : Option String
  ptp : Option String
deriving DecidableEq

/-- Lines 138-146: the lines printed for a single address.  The two
`end=''` prints of line 139-140 form one line. -/
def renderAddr (a : NicAddr) : List String :=
  ["    " ++ afFmt a.family ++ " address    : " ++ a.address]
  ++ (if pyTruthyStr a.broadcast then ["         broadcast  : " ++ a.broadcast.getD ""] else [])
  ++ (if pyTruthyStr a.netmask then ["         netmask    : " ++ a.netmask.getD ""] else [])
  ++ (if pyTruthyStr a.ptp then ["         p2p        : " ++ a.ptp.getD ""] else [])

/-- The joined stats line of lines 126-131 (two `end=''` prints). -/
def statsLine (st : NicStats) (dl : String) : String :=
  "    stats           : speed=" ++ intStr st.speed ++ "MB, duplex=" ++ dl
    ++ ", mtu=" ++ intStr st.mtu ++ ", up=" ++ (if st.isup then "yes" else "no")

/-- The joined incoming/outgoing IO lines of lines 132-137. -/
def ioLines (io : NicIo) : List String :=
  ["    incoming        : bytes=" ++ humanizeBytes io.bytes_recv ++ ", pkts="
     ++ natStr io.packets_recv ++ ", errs=" ++ natStr io.errin ++ ", drops=" ++ natStr io.dropin,
   "    outgoing        : bytes=" ++ humanizeBytes io.bytes_sent ++ ", pkts="
     ++ natStr io.packets_sent ++ ", errs=" ++ natStr io.errout ++ ", drops=" ++ natStr io.dropout]

/-- Lines printed for one NIC (loop body, lines 122-147).  When the duplex
code is outside `duplex_map` the `f`-string of line 131 raises `KeyError`
after the partial `print(..., end='')` of line 126 has flushed; the second
component carries that exception. -/
def renderNic (stats : List (String × NicStats)) (io : List (String × NicIo))
    (nic : String) (addrs : List NicAddr) : List String × Option String :=
  let base := [nic ++ ":"]
  let ioPart := match io.lookup nic with
    | some i => ioLines i
    | none => []
  let addrPart := (addrs.map renderAddr).flatten
  match stats.lookup nic with
  | some st =>
    match duplexIndex st.duplex with
    | none => (base ++ ["    stats           :"], some ("KeyError: " ++ intStr st.duplex))
    | some dl => (base ++ [statsLine st dl] ++ ioPart ++ addrPart ++ [""], none)
  | none => (base ++ ioPart ++ addrPart ++ [""], none)

/-- The NIC loop of lines 122-147: stops at the first raising NIC. -/
def renderNics (stats : List (String × NicStats)) (io : List (String × NicIo)) :
    List (String × List NicAddr) → List String × Option String
  | [] => ([], none)
  | (nic, addrs) :: rest =>
    match renderNic stats io nic addrs with
    | (ls, some e) => (ls, some e)
    | (ls, none) =>
      match renderNics stats io rest with
      | (ls2, e2) => (ls ++ ls2, e2)

/-- The three dicts read at lines 119-122 (`net_if_addrs` items in dict
order). -/
structure NetData where
  addrs : List (String × List NicAddr)
  stats : List (String × NicStats)
  io : List (String × NicIo)
deriving DecidableEq

/-- `get_network_info` (lines 114-150) after a successful read of the three
dicts; the error component models a `KeyError` escaping the loop (in which
case the closing banner of line 149 is never printed). -/
def netLines (host : String) (nd : NetData) : List String × Option String :=
  let hdr := [NETWORK_INFO, SECTION_SPAN, "Host                : " ++ host]
  match renderNics nd.stats nd.io nd.addrs with
  | (ls, some e) => (hdr ++ ls, some e)
  | (ls, none) => (hdr ++ ls ++ [SECTION_SPAN], none)

/-- One `shwtemp` entry.  `label = ""` models Python's falsy empty label
(line 187 `entry.label or name`).  The three temperature floats are opaque
platform values carried as the text `%s` renders for them. -/
structure TempEntry where
  label : String
  currentTxt : String
  highTxt : String
  criticalTxt : String
deriving DecidableEq

/-- One `sfan` entry (current speed is an integer RPM). -/
structure FanEntry where
  label : String
  current : Int
deriving DecidableEq

/-- `sensors_battery()` result: percent (float, exact rational here),
plugged flag, `secsleft` (may be a negative sentinel such as
`POWER_TIME_UNKNOWN = -1`). -/
structure BatteryData where
  percent : ℚ
  power_plugged : Bool
  secsleft : Int
deriving DecidableEq

/-- Round a rational to hundredths, ties to even — Python
`round(x, 2)` carried as integer hundredths. -/
def roundHe2 (q : ℚ) : Int :=
  let a := 100 * q.num
  let b := (q.den : Int)
  let n := a.fdiv b
  let r := a - n * b
  if 2 * r < b then n else if b < 2 * r then n + 1 else if n % 2 = 0 then n else n + 1

/-- Python repr of the float `round(x, 2)` produces, from its integer
hundredths: trailing zeros drop but at least one decimal remains
(`9750 ↦ "97.5"`, `10000 ↦ "100.0"`, `9705 ↦ "97.05"`). -/
def fmtHund (h : Int) : String :=
  if h.emod 10 = 0 then
    intStr ((h.ediv 10).ediv 10) ++ "." ++ intStr ((h.ediv 10).emod 10)
  else if h.emod 100 < 10 then
    intStr (h.ediv 100) ++ ".0" ++ intStr (h.emod 100)
  else
    intStr (h.ediv 100) ++ "." ++ intStr (h.emod 100)


/-- The battery block of lines 196-207. -/
def batteryBlock : Option BatteryData → List String
  | none => []
  | some b =>
    ["Battery:",
     "    charge:     " ++ fmtHund (roundHe2 b.percent) ++ "%"]
    ++ (if b.power_plugged then
          ["    status:     " ++ (if b.percent < 100 then "charging" else "fully charged"),
           "    plugged in: yes"]
        else
          ["    left:       " ++ secs2hours b.secsleft,
           "    status:     discharging",
           "    plugged in: no"])

/-- Line 186-188: one temperature entry line,
`"        %-20s %s°C (high=%s°C, critical=%s°C)"`. -/
def tempLine (name : String) (e : TempEntry) : String :=
  "        " ++ padRightTo 20 (if e.label = "" then name else e.label) ++ " "
    ++ e.currentTxt ++ "°C (high=" ++ e.highTxt ++ "°C, critical=" ++ e.criticalTxt ++ "°C)"

/-- Line 193-194: one fan entry line, `"        %-20s %s RPM"`. -/
def fanLine (name : String) (e : FanEntry) : String :=
  "        " ++ padRightTo 20 (if e.label = "" then name else e.label) ++ " "
    ++ intStr e.current ++ " RPM"

/-- Loop body of lines 180-194 for one sensor-group name. -/
def groupBlock (temps : List (String × List TempEntry))
    (fans : List (String × List FanEntry)) (name : String) : List String :=
  [name]
  ++ (match temps.lookup name with
      | some es => "    Temperatures:" :: es.map (tempLine name)
      | none => [])
  ++ (match fans.lookup name with
      | some es => "    Fans:" :: es.map (fanLine name)
      | none => [])

/-- The sensor snapshot of lines 162-173: the two hasattr-guarded dict reads
and the optional battery.  A platform lacking a capability yields an empty
dict / `None`, never an exception. -/
structure ClimateData where
  temps : List (String × List TempEntry)
  fans : List (String × List FanEntry)
  battery : Option BatteryData
deriving DecidableEq

/-- `set(list(temps.keys()) + list(fans.keys()))` (line 179); set iteration
order is unspecified in Python, modelled as first-occurrence order. -/
def climateNames (c : ClimateData) : List String :=
  (c.temps.map Prod.fst ++ c.fans.map Prod.fst).dedup

/-- `not any((temps, fans, battery))` (line 175): empty dicts and `None`
are falsy; a present battery namedtuple is always truthy. -/
def climateAllEmpty (c : ClimateData) : Bool :=
  c.temps.isEmpty && c.fans.isEmpty && c.battery.isNone

/-- `get_hw_temperatures` (lines 158-208).  Note the early `return` at
line 177: the degraded branch never reaches the closing banner print of
line 208. -/
def get_hw_temperatures (c : ClimateData) : List String :=
  [CLIMATE_INFO, SECTION_SPAN]
  ++ (if climateAllEmpty c then
        ["Cannot read temperature, fans or battery info"]
      else
        ((climateNames c).map (groupBlock c.temps c.fans)).flatten
          ++ batteryBlock c.battery ++ [SECTION_SPAN])

/-- The five banner lines of `print_program_header` (lines 38-45). -/
def programHeaderLines : List String :=
  [SECTION_SPAN, SPACER, PROGRAM_NAME, SPACER, SECTION_SPAN]

/-- One run's worth of OS reads.  Sections whose psutil reads can raise
carry an `Except`; the climate reads are `hasattr`-guarded and total. -/
structure World where
  cpu : Except String CpuData
  mem : Except String MemData
  disk : Except String DiskData
  host : String
  net : Except String NetData
  climate : ClimateData

/-- The `__main__` block (lines 210-217): `print('\n')` emits two blank
lines, then the program banner, then the six sections run strictly in
order with NO exception handling — the first raising read aborts the
program, leaving only the lines already printed (each section prints its
header before its first read). -/
def mainLines (w : World) : List String × Option String :=
  let pre := ["", ""] ++ programHeaderLines
  match w.cpu with
  | Except.error e => (pre ++ [CPU_INFO, SECTION_SPAN], some e)
  | Except.ok c =>
    let l1 := pre ++ cpuLines c
    match w.mem with
    | Except.error e => (l1 ++ [MEMORY_INFO, SECTION_SPAN], some e)
    | Except.ok m =>
      let l2 := l1 ++ memLines m
      match w.disk with
      | Except.error e => (l2 ++ [DISK_INFO, SECTION_SPAN], some e)
      | Except.ok d =>
        let l3 := l2 ++ diskLines d
        match w.net with
        | Except.error e =>
          (l3 ++ [NETWORK_INFO, SECTION_SPAN, "Host                : " ++ w.host], some e)
        | Except.ok nd =>
          match netLines w.host nd with
          | (ls, some e) => (l3 ++ ls, some e)
          | (ls, none) => (l3 ++ ls ++ get_hw_temperatures w.climate, none)

lemma dataElem_append (b y : String) (i : Nat) (c : Char)
    (h : b.data[i]? = some c) : (b ++ y).data[i]? = some c := by
  have hlt : i < b.data.length := by
    by_contra hge
    rw [List.getElem?_eq_none (by omega)] at h
    exact Option.noConfusion h
  rw [String.data_append, List.getElem?_append, if_pos hlt]
  exact h

lemma strNeElem (s t : String) (c d : Char) (i : Nat)
    (hs : s.data[i]? = some c) (ht : t.data[i]? = some d) (hne : c ≠ d) :
    s ≠ t := by
  intro he
  rw [he, ht] at hs
  exact hne (Option.some.inj hs).symm

/-- C3.  The claim calls the duplex converter a total function returning one
of the three labels for every code.  The code indexes `duplex_map` with
square brackets (line 131), so the code `3` — outside the three psutil enum
values — yields no label at all: the lookup fails (Python raises
`KeyError`). -/
theorem c3_counterexample :
    ¬(duplexIndex 3 = some "full" ∨ duplexIndex 3 = some "half" ∨
      duplexIndex 3 = some "?") := by
  decide

/-- C3 (amended).  The duplex converter is a partial dict lookup: it maps
exactly the three known psutil duplex codes (`2 ↦ "full"`, `1 ↦ "half"`,
`0 ↦ "?"`) and fails (raises `KeyError`) on every other code. -/
theorem c3_duplex_lookup :
    duplexIndex 2 = some "full" ∧ duplexIndex 1 = some "half" ∧
    duplexIndex 0 = some "?" ∧
    ∀ c : Int, c ≠ 0 → c ≠ 1 → c ≠ 2 → duplexIndex c = none := by
  refine ⟨by decide, by decide, by decide, ?_⟩
  intro c h0 h1 h2
  have e0 : (c == 0) = false := beq_eq_false_iff_ne.mpr h0
  have e1 : (c == 1) = false := beq_eq_false_iff_ne.mpr h1
  have e2 : (c == 2) = false := beq_eq_false_iff_ne.mpr h2
  simp [duplexIndex, duplex_map, List.lookup, e0, e1, e2]

/-- C3 witness: at the concrete unknown code 7 the lookup fails. -/
theorem c3_witness : duplexIndex 7 = none :=
  c3_duplex_lookup.2.2.2 7 (by decide) (by decide) (by decide)

/-- C9.  The address-family label converter maps `AF_INET = 2` to "IPv4",
`AF_INET6 = 10` to "IPv6" and the link-layer family `AF_LINK = 17` to
"MAC"; `dict.get(family, family)` (line 139) passes every other code
through unchanged. -/
theorem c9_af_label :
    afGet 2 = Sum.inl "IPv4" ∧ afGet 10 = Sum.inl "IPv6" ∧
    afGet 17 = Sum.inl "MAC" ∧
    ∀ c : Int, c ≠ 2 → c ≠ 10 → c ≠ 17 → afGet c = Sum.inr c := by
  refine ⟨by decide, by decide, by decide, ?_⟩
  intro c h2 h10 h17
  have e2 : (c == 2) = false := beq_eq_false_iff_ne.mpr h2
  have e10 : (c == 10) = false := beq_eq_false_iff_ne.mpr h10
  have e17 : (c == 17) = false := beq_eq_false_iff_ne.mpr h17
  simp [afGet, af_map, List.lookup, e2, e10, e17]

/-- C9 witness: the unrecognized code 99 passes through unchanged. -/
theorem c9_witness : afGet 99 = Sum.inr 99 :=
  c9_af_label.2.2.2 99 (by decide) (by decide) (by decide)

lemma natDigitsF_lt10 (f n : Nat) (hf : f ≠ 0) (h : n < 10) :
    natDigitsF f n = [Nat.digitChar n] := by
  cases f with
  | zero => exact absurd rfl hf
  | succ f => simp [natDigitsF, h]

lemma natDigitsF_two (f n : Nat) (hf : 2 ≤ f) (h1 : 10 ≤ n) (h2 : n < 100) :
    natDigitsF f n = [Nat.digitChar (n / 10), Nat.digitChar (n % 10)] := by
  cases f with
  | zero => omega
  | succ f =>
    have hn : ¬n < 10 := by omega
    simp only [natDigitsF, if_neg hn]
    rw [natDigitsF_lt10 f (n / 10) (by omega) (by omega)]
    rfl

lemma natStr_length_one (n : Nat) (h : n < 10) : (natStr n).length = 1 := by
  unfold natStr
  rw [natDigitsF_lt10 (n + 1) n (by omega) h]
  rfl

lemma natStr_length_two (n : Nat) (h1 : 10 ≤ n) (h2 : n < 100) :
    (natStr n).length = 2 := by
  unfold natStr
  rw [natDigitsF_two (n + 1) n (by omega) h1 h2]
  rfl

lemma pyFmt02d_ofNat_length (n : Nat) (h : n < 100) :
    (pyFmt02d (n : Int)).length = 2 := by
  unfold pyFmt02d
  by_cases h10 : n < 10
  · rw [if_pos ⟨Int.ofNat_nonneg n, by exact_mod_cast h10⟩]
    have he : intStr (n : Int) = natStr n := rfl
    rw [he, String.length_append, natStr_length_one n h10]
    rfl
  · rw [if_neg ?hc]
    case hc =>
      rintro ⟨-, hlt⟩
      exact h10 (by exact_mod_cast hlt)
    have he : intStr (n : Int) = natStr n := rfl
    rw [he, natStr_length_two n (by omega) h]

lemma secs2hours_ofNat (s : Nat) :
    secs2hours (s : Int) =
      natStr (s / 3600) ++ ":" ++ pyFmt02d ((s % 3600 / 60 : Nat) : Int)
        ++ ":" ++ pyFmt02d ((s % 60 : Nat) : Int) := by
  have key : secs2hours (s : Int) =
      intStr (((s : Int).ediv 60).ediv 60) ++ ":"
        ++ pyFmt02d (((s : Int).ediv 60).emod 60) ++ ":"
        ++ pyFmt02d ((s : Int).emod 60) := rfl
  have h2 : (s : Int).emod 60 = ((s % 60 : Nat) : Int) := rfl
  have h3 : ((s : Int).ediv 60).ediv 60 = ((s / 60 / 60 : Nat) : Int) := rfl
  have h4 : ((s : Int).ediv 60).emod 60 = ((s / 60 % 60 : Nat) : Int) := rfl
  have h5 : s / 60 / 60 = s / 3600 := by omega
  have h6 : s / 60 % 60 = s % 3600 / 60 := by omega
  rw [key, h2, h3, h4, h5, h6]
  rfl

/-- C4.  `secs2hours` formats a non-negative second count as `H:MM:SS` by
integer division: the hour field is `str(s // 3600)` with no padding (thus
unbounded width), the minute and second fields are `%02d`-rendered values
below 60, hence always exactly two characters; and the three example values
of the spec evaluate as claimed. -/
theorem c4_seconds_to_clock :
    (∀ s : Nat,
        secs2hours (s : Int) =
          natStr (s / 3600) ++ ":" ++ pyFmt02d ((s % 3600 / 60 : Nat) : Int)
            ++ ":" ++ pyFmt02d ((s % 60 : Nat) : Int) ∧
        (pyFmt02d ((s % 3600 / 60 : Nat) : Int)).length = 2 ∧
        (pyFmt02d ((s % 60 : Nat) : Int)).length = 2) ∧
    secs2hours 3661 = "1:01:01" ∧ secs2hours 59 = "0:00:59" ∧
    secs2hours 3600 = "1:00:00" := by
  refine ⟨fun s => ⟨secs2hours_ofNat s, ?_, ?_⟩, by decide, by decide, by decide⟩
  · exact pyFmt02d_ofNat_length _ (by omega)
  · exact pyFmt02d_ofNat_length _ (by omega)

/-- C10.  For every non-negative second count the output of `secs2hours`
decomposes uniquely as `hh:mm:ss` with two-digit `mm, ss < 60` recombining
to the input (`hh*3600 + mm*60 + ss = s`); the negative sentinel `-1`
(psutil `POWER_TIME_UNKNOWN`) instead produces the malformed string
`"-1:59:59"`, whose hour field is no digit string. -/
theorem c10_clock_roundtrip :
    (∀ s : Nat, ∃ hh mm ss : Nat,
        mm < 60 ∧ ss < 60 ∧ hh * 3600 + mm * 60 + ss = s ∧
        secs2hours (s : Int) =
          natStr hh ++ ":" ++ pyFmt02d (mm : Int) ++ ":" ++ pyFmt02d (ss : Int) ∧
        (pyFmt02d (mm : Int)).length = 2 ∧ (pyFmt02d (ss : Int)).length = 2) ∧
    secs2hours (-1) = "-1:59:59" := by
  refine ⟨fun s => ⟨s / 3600, s % 3600 / 60, s % 60, by omega, by omega, by omega,
    secs2hours_ofNat s, pyFmt02d_ofNat_length _ (by omega),
    pyFmt02d_ofNat_length _ (by omega)⟩, by decide⟩

lemma unitOrderF_bounds : ∀ f n : Nat, n < f →
    n < 1024 ^ (unitOrderF f n + 1) ∧
    (unitOrderF f n = 0 ∨ 1024 ^ unitOrderF f n ≤ n) := by
  intro f
  induction f with
  | zero => intro n h; omega
  | succ f ih =>
    intro n hn
    by_cases h : n < 1024
    · simp only [unitOrderF, if_pos h]
      exact ⟨by simpa using h, Or.inl trivial⟩
    · simp only [unitOrderF, if_neg h]
      have hd : n / 1024 < f := by
        have := Nat.div_lt_self (by omega : 0 < n) (by omega : 1 < 1024)
        omega
      obtain ⟨ub, lb⟩ := ih (n / 1024) hd
      constructor
      · have h1 : n < 1024 ^ (unitOrderF f (n / 1024) + 1) * 1024 :=
          (Nat.div_lt_iff_lt_mul (by norm_num)).mp ub
        calc n < 1024 ^ (unitOrderF f (n / 1024) + 1) * 1024 := h1
          _ = 1024 ^ (unitOrderF f (n / 1024) + 1 + 1) := by ring
      · right
        rcases lb with h0 | hle
        · rw [h0]
          simpa using (by omega : 1024 ≤ n)
        · have h1 : 1024 * 1024 ^ unitOrderF f (n / 1024) ≤ 1024 * (n / 1024) :=
            Nat.mul_le_mul_left _ hle
          have h2 : 1024 * (n / 1024) ≤ n := by
            rw [Nat.mul_comm]
            exact Nat.div_mul_le_self n 1024
          calc 1024 ^ (unitOrderF f (n / 1024) + 1)
              = 1024 * 1024 ^ unitOrderF f (n / 1024) := by ring
            _ ≤ 1024 * (n / 1024) := h1
            _ ≤ n := h2

lemma unitOrder_upper (n : Nat) : n < 1024 ^ (unitOrder n + 1) :=
  (unitOrderF_bounds (n + 1) n (by omega)).1

lemma unitOrder_lower (n : Nat) : unitOrder n = 0 ∨ 1024 ^ unitOrder n ≤ n :=
  (unitOrderF_bounds (n + 1) n (by omega)).2

lemma humanTenths_le (n : Nat) :
    2 * 1024 ^ unitOrder n * humanTenths n ≤ 20 * n + 1024 ^ unitOrder n := by
  have h := Nat.div_mul_le_self (20 * n + 1024 ^ unitOrder n) (2 * 1024 ^ unitOrder n)
  unfold humanTenths
  calc 2 * 1024 ^ unitOrder n * ((20 * n + 1024 ^ unitOrder n) / (2 * 1024 ^ unitOrder n))
      = (20 * n + 1024 ^ unitOrder n) / (2 * 1024 ^ unitOrder n)
          * (2 * 1024 ^ unitOrder n) := by ring
    _ ≤ 20 * n + 1024 ^ unitOrder n := h

lemma humanTenths_ge (n : Nat) :
    20 * n + 1024 ^ unitOrder n < 2 * 1024 ^ unitOrder n * (humanTenths n + 1) := by
  have hP : 0 < 1024 ^ unitOrder n := pow_pos (by norm_num) _
  have key := Nat.div_add_mod (20 * n + 1024 ^ unitOrder n) (2 * 1024 ^ unitOrder n)
  have hr : (20 * n + 1024 ^ unitOrder n) % (2 * 1024 ^ unitOrder n)
      < 2 * 1024 ^ unitOrder n :=
    Nat.mod_lt _ (by omega)
  unfold humanTenths
  rw [Nat.mul_succ]
  omega

/-- C5 (spec-modelled).  For every byte count `n ≥ 0` the humanizer picks
the unit order `k` with exact scaled value `v = n / 1024^k` satisfying
`0 ≤ v < 1024` and, unless `k = 0`, `1024^k ≤ n` (so `k` is the largest
qualifying binary unit); the rendered string is `v` rounded to one decimal
place followed by the unit suffix, and the displayed one-decimal value
scaled back by `1024^k` is within `1024^k / 20` (half of the last displayed
digit) of `n`. -/
theorem c5_humanize_bytes :
    ∀ n : Nat,
      (0 : ℚ) ≤ (n : ℚ) / (1024 : ℚ) ^ unitOrder n ∧
      (n : ℚ) / (1024 : ℚ) ^ unitOrder n < 1024 ∧
      (unitOrder n = 0 ∨ 1024 ^ unitOrder n ≤ n) ∧
      humanizeBytes n = fmt1 (humanTenths n) ++ unitName (unitOrder n) ∧
      |(humanTenths n : ℚ) / 10 * (1024 : ℚ) ^ unitOrder n - (n : ℚ)|
        ≤ (1024 : ℚ) ^ unitOrder n / 20 := by
  intro n
  have hPq : (0 : ℚ) < (1024 : ℚ) ^ unitOrder n := by positivity
  refine ⟨by positivity, ?_, unitOrder_lower n, rfl, ?_⟩
  · have h := unitOrder_upper n
    have hq : (n : ℚ) < (1024 : ℚ) ^ (unitOrder n + 1) := by exact_mod_cast h
    rw [div_lt_iff₀ hPq]
    calc (n : ℚ) < (1024 : ℚ) ^ (unitOrder n + 1) := hq
      _ = 1024 * (1024 : ℚ) ^ unitOrder n := by ring
  · have h1 := humanTenths_le n
    have h2 := humanTenths_ge n
    have hq1 : 2 * (1024 : ℚ) ^ unitOrder n * (humanTenths n : ℚ)
        ≤ 20 * (n : ℚ) + (1024 : ℚ) ^ unitOrder n := by exact_mod_cast h1
    have hq2 : 20 * (n : ℚ) + (1024 : ℚ) ^ unitOrder n
        < 2 * (1024 : ℚ) ^ unitOrder n * ((humanTenths n : ℚ) + 1) := by exact_mod_cast h2
    rw [abs_le]
    constructor
    · linarith
    · linarith

/-- C1.  The claim says a failing section read is reported as a visible
line and subsequent sections still run.  At the concrete run whose CPU read
raises `MetricsUnavailable`, the program prints only the banner and the CPU
header and dies: no failure line appears anywhere, and the memory, disk,
network and climate sections never render. -/
theorem c1_counterexample :
    mainLines ⟨Except.error "MetricsUnavailable", Except.ok ⟨0, 0⟩, Except.ok ⟨0, 0⟩,
        "host", Except.ok ⟨[], [], []⟩, ⟨[], [], none⟩⟩
      = (["", "", SECTION_SPAN, SPACER, PROGRAM_NAME, SPACER, SECTION_SPAN,
          CPU_INFO, SECTION_SPAN], some "MetricsUnavailable") ∧
    MEMORY_INFO ∉ (mainLines ⟨Except.error "MetricsUnavailable", Except.ok ⟨0, 0⟩,
        Except.ok ⟨0, 0⟩, "host", Except.ok ⟨[], [], []⟩, ⟨[], [], none⟩⟩).1 ∧
    NETWORK_INFO ∉ (mainLines ⟨Except.error "MetricsUnavailable", Except.ok ⟨0, 0⟩,
        Except.ok ⟨0, 0⟩, "host", Except.ok ⟨[], [], []⟩, ⟨[], [], none⟩⟩).1 ∧
    CLIMATE_INFO ∉ (mainLines ⟨Except.error "MetricsUnavailable", Except.ok ⟨0, 0⟩,
        Except.ok ⟨0, 0⟩, "host", Except.ok ⟨[], [], []⟩, ⟨[], [], none⟩⟩).1 := by
  decide

/-- C1 (amended).  The `__main__` block has no exception handling: whichever
section's read raises, the exception aborts the whole program.  The failing
section shows only the lines already printed before its first read — its
header banner lines, and for the network section also the `Host` line — no
failure-report line is printed and no subsequent section runs.  An exception
inside the network NIC loop (an unknown duplex code) likewise aborts after
the partial stats text.  All six parts (banner, CPU, memory, disk, network,
climate) render, in that fixed order, exactly when every read succeeds; the
climate section alone degrades gracefully, because its capability probes
cannot raise. -/
theorem c1_sequential_abort :
    (∀ (w : World) (e : String), w.cpu = Except.error e →
        mainLines w = (["", ""] ++ programHeaderLines ++ [CPU_INFO, SECTION_SPAN], some e)) ∧
    (∀ (w : World) (c : CpuData) (e : String),
        w.cpu = Except.ok c → w.mem = Except.error e →
        mainLines w = (["", ""] ++ programHeaderLines ++ cpuLines c
          ++ [MEMORY_INFO, SECTION_SPAN], some e)) ∧
    (∀ (w : World) (c : CpuData) (m : MemData) (e : String),
        w.cpu = Except.ok c → w.mem = Except.ok m → w.disk = Except.error e →
        mainLines w = (["", ""] ++ programHeaderLines ++ cpuLines c ++ memLines m
          ++ [DISK_INFO, SECTION_SPAN], some e)) ∧
    (∀ (w : World) (c : CpuData) (m : MemData) (d : DiskData) (e : String),
        w.cpu = Except.ok c → w.mem = Except.ok m → w.disk = Except.ok d →
        w.net = Except.error e →
        mainLines w = (["", ""] ++ programHeaderLines ++ cpuLines c ++ memLines m
          ++ diskLines d
          ++ [NETWORK_INFO, SECTION_SPAN, "Host                : " ++ w.host], some e)) ∧
    (∀ (w : World) (c : CpuData) (m : MemData) (d : DiskData) (nd : NetData)
        (ls : List String) (e : String),
        w.cpu = Except.ok c → w.mem = Except.ok m → w.disk = Except.ok d →
        w.net = Except.ok nd → netLines w.host nd = (ls, some e) →
        mainLines w = (["", ""] ++ programHeaderLines ++ cpuLines c ++ memLines m
          ++ diskLines d ++ ls, some e)) ∧
    (∀ (w : World) (c : CpuData) (m : MemData) (d : DiskData) (nd : NetData)
        (ls : List String),
        w.cpu = Except.ok c → w.mem = Except.ok m → w.disk = Except.ok d →
        w.net = Except.ok nd → netLines w.host nd = (ls, none) →
        mainLines w = (["", ""] ++ programHeaderLines ++ cpuLines c ++ memLines m
          ++ diskLines d ++ ls ++ get_hw_temperatures w.climate, none)) := by
  refine ⟨?_, ?_, ?_, ?_, ?_, ?_⟩
  · intro w e h
    obtain ⟨cpu, mem, disk, host, net, climate⟩ := w
    simp only at h
    subst h
    rfl
  · intro w c e hc h
    obtain ⟨cpu, mem, disk, host, net, climate⟩ := w
    simp only at hc h
    subst hc; subst h
    rfl
  · intro w c m e hc hm h
    obtain ⟨cpu, mem, disk, host, net, climate⟩ := w
    simp only at hc hm h
    subst hc; subst hm; subst h
    rfl
  · intro w c m d e hc hm hd h
    obtain ⟨cpu, mem, disk, host, net, climate⟩ := w
    simp only at hc hm hd h
    subst hc; subst hm; subst hd; subst h
    rfl
  · intro w c m d nd ls e hc hm hd hn hnet
    obtain ⟨cpu, mem, disk, host, net, climate⟩ := w
    simp only at hc hm hd hn hnet
    subst hc; subst hm; subst hd; subst hn
    simp only [mainLines, hnet]
  · intro w c m d nd ls hc hm hd hn hnet
    obtain ⟨cpu, mem, disk, host, net, climate⟩ := w
    simp only at hc hm hd hn hnet
    subst hc; subst hm; subst hd; subst hn
    simp only [mainLines, hnet]

/-- C1 witness: the abort behavior at concrete worlds — a raising CPU read
(header only) and a raising network read (header plus `Host` line); in both
runs the error propagates and nothing further prints. -/
theorem c1_witness :
    mainLines ⟨Except.error "PermissionDenied", Except.ok ⟨0, 0⟩, Except.ok ⟨0, 0⟩,
        "h", Except.ok ⟨[], [], []⟩, ⟨[], [], none⟩⟩
      = (["", ""] ++ programHeaderLines ++ [CPU_INFO, SECTION_SPAN],
         some "PermissionDenied") ∧
    mainLines ⟨Except.ok ⟨0, none, [], none, 0, 0, 0⟩, Except.ok ⟨0, 0⟩, Except.ok ⟨0, 0⟩,
        "h", Except.error "MetricsUnavailable", ⟨[], [], none⟩⟩
      = (["", ""] ++ programHeaderLines ++ cpuLines ⟨0, none, [], none, 0, 0, 0⟩
          ++ memLines ⟨0, 0⟩ ++ diskLines ⟨0, 0⟩
          ++ [NETWORK_INFO, SECTION_SPAN, "Host                : " ++ "h"],
         some "MetricsUnavailable") :=
  ⟨c1_sequential_abort.1 _ "PermissionDenied" rfl,
   c1_sequential_abort.2.2.2.1 _ ⟨0, none, [], none, 0, 0, 0⟩ ⟨0, 0⟩ ⟨0, 0⟩
     "MetricsUnavailable" rfl rfl rfl rfl⟩

/-- C6.  The claim says every section's output ends with the 80-star
closing banner on every input.  The climate section with no temperature,
fan or battery data returns early (line 177) after printing the
"cannot read" line: its output ends with that line, not with the banner. -/
theorem c6_counterexample :
    get_hw_temperatures ⟨[], [], none⟩
      = [CLIMATE_INFO, SECTION_SPAN, "Cannot read temperature, fans or battery info"] ∧
    (get_hw_temperatures ⟨[], [], none⟩).getLast? ≠ some SECTION_SPAN := by
  decide

lemma getLast_pair_concat (a b : List String) (x : String) :
    (a ++ (b ++ [x])).getLast? = some x := by
  rw [← List.append_assoc]
  exact List.getLast?_concat _

/-- C6 (amended).  `SECTION_SPAN` is the full 80-character row of `*`, and
every section's output ends with it — the program banner, CPU, memory and
disk always, the network section whenever its NIC loop does not raise, and
the climate section whenever some sensor data is present.  The sole
exception, forced by the counterexample, is the climate section's degraded
case, which ends with the "cannot read" line instead. -/
theorem c6_section_banners :
    SECTION_SPAN.length = 80 ∧ SECTION_SPAN.data.all (fun ch => ch = '*') = true ∧
    (∀ c : CpuData, (cpuLines c).getLast? = some SECTION_SPAN) ∧
    (∀ m : MemData, (memLines m).getLast? = some SECTION_SPAN) ∧
    (∀ d : DiskData, (diskLines d).getLast? = some SECTION_SPAN) ∧
    (∀ (h : String) (nd : NetData) (ls : List String),
        netLines h nd = (ls, none) → ls.getLast? = some SECTION_SPAN) ∧
    (∀ c : ClimateData, climateAllEmpty c = false →
        (get_hw_temperatures c).getLast? = some SECTION_SPAN) ∧
    (∀ c : ClimateData, climateAllEmpty c = true →
        (get_hw_temperatures c).getLast?
          = some "Cannot read temperature, fans or battery info") ∧
    programHeaderLines.getLast? = some SECTION_SPAN := by
  refine ⟨by decide, by decide, fun c => rfl, fun m => rfl, fun d => rfl, ?_, ?_, ?_, rfl⟩
  · intro h nd ls hnet
    unfold netLines at hnet
    rcases hrn : renderNics nd.stats nd.io nd.addrs with ⟨a, e⟩
    rw [hrn] at hnet
    cases e with
    | some err => exact absurd (congrArg Prod.snd hnet) (by simp)
    | none =>
      have hls : ls = [NETWORK_INFO, SECTION_SPAN, "Host                : " ++ h]
          ++ a ++ [SECTION_SPAN] := (congrArg Prod.fst hnet).symm
      rw [hls]
      exact List.getLast?_concat _
  · intro c hfalse
    simp only [get_hw_temperatures, hfalse, Bool.false_eq_true, if_false]
    exact getLast_pair_concat _ _ _
  · intro c htrue
    simp [get_hw_temperatures, htrue]

/-- C6 witness: the network part at an interface-free snapshot and the
climate parts at a one-group and at an all-empty snapshot. -/
theorem c6_witness :
    (netLines "h" ⟨[], [], []⟩).1.getLast? = some SECTION_SPAN ∧
    (get_hw_temperatures ⟨[("cpu", [])], [], none⟩).getLast? = some SECTION_SPAN ∧
    (get_hw_temperatures ⟨[], [], none⟩).getLast?
      = some "Cannot read temperature, fans or battery info" :=
  ⟨c6_section_banners.2.2.2.2.2.1 "h" ⟨[], [], []⟩ _ rfl,
   c6_section_banners.2.2.2.2.2.2.1 ⟨[("cpu", [])], [], none⟩ (by decide),
   c6_section_banners.2.2.2.2.2.2.2.1 ⟨[], [], none⟩ (by decide)⟩

/-- C8.  `renderAddr` emits the mandatory address line followed by a tail
that contains the broadcast / netmask / point-to-point line exactly once
when the corresponding field is truthy (present and non-empty) and not at
all — not even as a blank-value line — when it is absent or empty; the
tail has exactly one line per truthy field and nothing else. -/
theorem c8_optional_addr_lines :
    ∀ a : NicAddr, ∃ tail : List String,
      renderAddr a = ("    " ++ afFmt a.family ++ " address    : " ++ a.address) :: tail ∧
      tail.count ("         broadcast  : " ++ a.broadcast.getD "")
        = (if pyTruthyStr a.broadcast then 1 else 0) ∧
      tail.count ("         netmask    : " ++ a.netmask.getD "")
        = (if pyTruthyStr a.netmask then 1 else 0) ∧
      tail.count ("         p2p        : " ++ a.ptp.getD "")
        = (if pyTruthyStr a.ptp then 1 else 0) ∧
      tail.length = (if pyTruthyStr a.broadcast then 1 else 0)
        + (if pyTruthyStr a.netmask then 1 else 0)
        + (if pyTruthyStr a.ptp then 1 else 0) := by
  intro a
  have hbn : ("         broadcast  : " ++ a.broadcast.getD "")
      ≠ ("         netmask    : " ++ a.netmask.getD "") :=
    strNeElem _ _ 'b' 'n' 9 (dataElem_append _ _ _ _ (by decide))
      (dataElem_append _ _ _ _ (by decide)) (by decide)
  have hbp : ("         broadcast  : " ++ a.broadcast.getD "")
      ≠ ("         p2p        : " ++ a.ptp.getD "") :=
    strNeElem _ _ 'b' 'p' 9 (dataElem_append _ _ _ _ (by decide))
      (dataElem_append _ _ _ _ (by decide)) (by decide)
  have hnp : ("         netmask    : " ++ a.netmask.getD "")
      ≠ ("         p2p        : " ++ a.ptp.getD "") :=
    strNeElem _ _ 'n' 'p' 9 (dataElem_append _ _ _ _ (by decide))
      (dataElem_append _ _ _ _ (by decide)) (by decide)
  have hnb := hbn.symm
  have hpb := hbp.symm
  have hpn := hnp.symm
  refine ⟨(if pyTruthyStr a.broadcast
        then ["         broadcast  : " ++ a.broadcast.getD ""] else [])
      ++ (if pyTruthyStr a.netmask
        then ["         netmask    : " ++ a.netmask.getD ""] else [])
      ++ (if pyTruthyStr a.ptp
        then ["         p2p        : " ++ a.ptp.getD ""] else []), ?_, ?_⟩
  · simp [renderAddr]
  · cases hb : pyTruthyStr a.broadcast <;> cases hn : pyTruthyStr a.netmask <;>
      cases hp : pyTruthyStr a.ptp <;>
      simp [List.count_append, List.count_cons, List.count_nil,
        hbn, hnb, hbp, hpb, hnp, hpn]

/-- C7.  When battery data is present the climate section prints the charge
percent rounded to two decimals; when plugged in it prints status
"charging" exactly when percent < 100 and "fully charged" exactly when
percent = 100 (using the snapshot invariant percent ≤ 100), together with
"plugged in: yes"; when not plugged in it prints the remaining time through
`secs2hours`, status "discharging" and "plugged in: no". -/
theorem c7_battery_rendering :
    ∀ b : BatteryData, 0 ≤ b.percent → b.percent ≤ 100 →
      ("    charge:     " ++ fmtHund (roundHe2 b.percent) ++ "%" ∈ batteryBlock (some b)) ∧
      (("    status:     charging" ∈ batteryBlock (some b))
        ↔ (b.power_plugged = true ∧ b.percent < 100)) ∧
      (("    status:     fully charged" ∈ batteryBlock (some b))
        ↔ (b.power_plugged = true ∧ b.percent = 100)) ∧
      (("    plugged in: yes" ∈ batteryBlock (some b)) ↔ b.power_plugged = true) ∧
      (("    plugged in: no" ∈ batteryBlock (some b)) ↔ b.power_plugged = false) ∧
      (("    status:     discharging" ∈ batteryBlock (some b)) ↔ b.power_plugged = false) ∧
      (b.power_plugged = false →
        "    left:       " ++ secs2hours b.secsleft ∈ batteryBlock (some b)) := by
  intro b h0 hcap
  have n1 : ("    status:     charging" : String)
      ≠ "    charge:     " ++ fmtHund (roundHe2 b.percent) ++ "%" :=
    strNeElem _ _ 's' 'c' 4 (by decide)
      (dataElem_append _ _ _ _ (dataElem_append _ _ _ _ (by decide))) (by decide)
  have n2 : ("    status:     fully charged" : String)
      ≠ "    charge:     " ++ fmtHund (roundHe2 b.percent) ++ "%" :=
    strNeElem _ _ 's' 'c' 4 (by decide)
      (dataElem_append _ _ _ _ (dataElem_append _ _ _ _ (by decide))) (by decide)
  have n3 : ("    plugged in: yes" : String)
      ≠ "    charge:     " ++ fmtHund (roundHe2 b.percent) ++ "%" :=
    strNeElem _ _ 'p' 'c' 4 (by decide)
      (dataElem_append _ _ _ _ (dataElem_append _ _ _ _ (by decide))) (by decide)
  have n4 : ("    plugged in: no" : String)
      ≠ "    charge:     " ++ fmtHund (roundHe2 b.percent) ++ "%" :=
    strNeElem _ _ 'p' 'c' 4 (by decide)
      (dataElem_append _ _ _ _ (dataElem_append _ _ _ _ (by decide))) (by decide)
  have n5 : ("    status:     discharging" : String)
      ≠ "    charge:     " ++ fmtHund (roundHe2 b.percent) ++ "%" :=
    strNeElem _ _ 's' 'c' 4 (by decide)
      (dataElem_append _ _ _ _ (dataElem_append _ _ _ _ (by decide))) (by decide)
  have n6 : ("    status:     charging" : String)
      ≠ "    left:       " ++ secs2hours b.secsleft :=
    strNeElem _ _ 's' 'l' 4 (by decide) (dataElem_append _ _ _ _ (by decide)) (by decide)
  have n7 : ("    status:     fully charged" : String)
      ≠ "    left:       " ++ secs2hours b.secsleft :=
    strNeElem _ _ 's' 'l' 4 (by decide) (dataElem_append _ _ _ _ (by decide)) (by decide)
  have n8 : ("    plugged in: yes" : String)
      ≠ "    left:       " ++ secs2hours b.secsleft :=
    strNeElem _ _ 'p' 'l' 4 (by decide) (dataElem_append _ _ _ _ (by decide)) (by decide)
  cases hpp : b.power_plugged with
  | false =>
    have hbb : batteryBlock (some b)
        = ["Battery:", "    charge:     " ++ fmtHund (roundHe2 b.percent) ++ "%",
           "    left:       " ++ secs2hours b.secsleft,
           "    status:     discharging", "    plugged in: no"] := by
      simp [batteryBlock, hpp]
    refine ⟨?_, ?_, ?_, ?_, ?_, ?_, ?_⟩ <;>
      simp [hbb, n1, n2, n3, n4, n5, n6, n7, n8]
  | true =>
    by_cases h100 : b.percent < 100
    · have hbb : batteryBlock (some b)
          = ["Battery:", "    charge:     " ++ fmtHund (roundHe2 b.percent) ++ "%",
             "    status:     charging", "    plugged in: yes"] := by
        simp [batteryBlock, hpp, h100]
      have hne100 : b.percent ≠ 100 := ne_of_lt h100
      refine ⟨?_, ?_, ?_, ?_, ?_, ?_, ?_⟩ <;>
        simp [hbb, n1, n2, n3, n4, n5, h100, hne100]
    · have hbb : batteryBlock (some b)
          = ["Battery:", "    charge:     " ++ fmtHund (roundHe2 b.percent) ++ "%",
             "    status:     fully charged", "    plugged in: yes"] := by
        simp [batteryBlock, hpp, h100]
      have heq : b.percent = 100 := le_antisymm hcap (not_lt.mp h100)
      rw [heq] at n1 n2 n3 n4 n5 hbb
      refine ⟨?_, ?_, ?_, ?_, ?_, ?_, ?_⟩ <;>
        simp [hbb, n1, n2, n3, n4, n5, h100, heq]

/-- C7 witness: a full plugged-in battery at 100 percent renders the
"fully charged" status line. -/
theorem c7_witness :
    "    status:     fully charged" ∈ batteryBlock (some ⟨100, true, 0⟩) :=
  ((c7_battery_rendering ⟨100, true, 0⟩ (by norm_num) (by norm_num)).2.2.1).mpr
    ⟨rfl, rfl⟩

lemma msg_ne_tempLine (name : String) (e : TempEntry) :
    "Cannot read temperature, fans or battery info" ≠ tempLine name e := by
  refine strNeElem _ _ 'C' ' ' 0 (by decide) ?_ (by decide)
  unfold tempLine
  repeat apply dataElem_append
  decide

lemma msg_ne_fanLine (name : String) (e : FanEntry) :
    "Cannot read temperature, fans or battery info" ≠ fanLine name e := by
  refine strNeElem _ _ 'C' ' ' 0 (by decide) ?_ (by decide)
  unfold fanLine
  repeat apply dataElem_append
  decide

lemma msg_notin_groupBlock (temps : List (String × List TempEntry))
    (fans : List (String × List FanEntry)) (name : String)
    (hname : name ≠ "Cannot read temperature, fans or battery info") :
    "Cannot read temperature, fans or battery info" ∉ groupBlock temps fans name := by
  intro hmem
  unfold groupBlock at hmem
  rw [List.mem_append, List.mem_append] at hmem
  rcases hmem with (h1 | h2) | h3
  · exact hname (List.mem_singleton.mp h1).symm
  · cases htl : temps.lookup name with
    | none => rw [htl] at h2; exact absurd h2 (List.not_mem_nil _)
    | some es =>
      rw [htl] at h2
      rcases List.mem_cons.mp h2 with he | hm
      · exact absurd he (by decide)
      · rcases List.mem_map.mp hm with ⟨e, -, heq⟩
        exact msg_ne_tempLine name e heq.symm
  · cases hfl : fans.lookup name with
    | none => rw [hfl] at h3; exact absurd h3 (List.not_mem_nil _)
    | some es =>
      rw [hfl] at h3
      rcases List.mem_cons.mp h3 with he | hm
      · exact absurd he (by decide)
      · rcases List.mem_map.mp hm with ⟨e, -, heq⟩
        exact msg_ne_fanLine name e heq.symm

lemma msg_notin_batteryBlock (ob : Option BatteryData) :
    "Cannot read temperature, fans or battery info" ∉ batteryBlock ob := by
  cases ob with
  | none => simp [batteryBlock]
  | some b =>
    have hch : ("Cannot read temperature, fans or battery info" : String)
        ≠ "    charge:     " ++ fmtHund (roundHe2 b.percent) ++ "%" :=
      strNeElem _ _ 'C' ' ' 0 (by decide)
        (dataElem_append _ _ _ _ (dataElem_append _ _ _ _ (by decide))) (by decide)
    have hlf : ("Cannot read temperature, fans or battery info" : String)
        ≠ "    left:       " ++ secs2hours b.secsleft :=
      strNeElem _ _ 'C' ' ' 0 (by decide) (dataElem_append _ _ _ _ (by decide)) (by decide)
    have hsc : ("Cannot read temperature, fans or battery info" : String)
        ≠ "    status:     " ++ "charging" := by decide
    have hsf : ("Cannot read temperature, fans or battery info" : String)
        ≠ "    status:     " ++ "fully charged" := by decide
    unfold batteryBlock
    by_cases hp : b.power_plugged <;> by_cases h1 : b.percent < 100 <;>
      simp [hp, h1, hch, hlf, hsc, hsf]

/-- C2.  Provided no sensor-group name collides with the message text, the
climate section contains the line "Cannot read temperature, fans or battery
info" exactly when the temperature map, the fan map and the battery are all
empty/absent (line 175, `not any((temps, fans, battery))`); when any of the
three is present, the section instead renders the group blocks and the
battery block between its banners. -/
theorem c2_climate_cannot_read :
    ∀ c : ClimateData,
      ("Cannot read temperature, fans or battery info" ∉ climateNames c →
        (("Cannot read temperature, fans or battery info" ∈ get_hw_temperatures c)
          ↔ (c.temps = [] ∧ c.fans = [] ∧ c.battery = none))) ∧
      (¬(c.temps = [] ∧ c.fans = [] ∧ c.battery = none) →
        get_hw_temperatures c
          = [CLIMATE_INFO, SECTION_SPAN]
            ++ ((climateNames c).map (groupBlock c.temps c.fans)).flatten
            ++ batteryBlock c.battery ++ [SECTION_SPAN]) := by
  intro c
  have hiff : climateAllEmpty c = true ↔ (c.temps = [] ∧ c.fans = [] ∧ c.battery = none) := by
    simp [climateAllEmpty, List.isEmpty_iff, Option.isNone_iff_eq_none, and_assoc]
  constructor
  · intro hname
    by_cases hae : climateAllEmpty c = true
    · have h3 := hiff.mp hae
      simp [get_hw_temperatures, hae, h3]
    · have hfalse : climateAllEmpty c = false := by
        cases hb : climateAllEmpty c with
        | false => rfl
        | true => exact absurd hb hae
      have hrhs : ¬(c.temps = [] ∧ c.fans = [] ∧ c.battery = none) :=
        fun h => hae (hiff.mpr h)
      constructor
      · intro hmem
        exfalso
        simp only [get_hw_temperatures, hfalse, Bool.false_eq_true, if_false] at hmem
        rcases List.mem_append.mp hmem with h1 | h2
        · rcases List.mem_cons.mp h1 with he | h1b
          · exact absurd he (by decide)
          · rcases List.mem_cons.mp h1b with he | h1c
            · exact absurd he (by decide)
            · exact absurd h1c (List.not_mem_nil _)
        · rcases List.mem_append.mp h2 with h4 | h5
          · rcases List.mem_append.mp h4 with h6 | h7
            · rcases List.mem_flatten.mp h6 with ⟨block, hblock, hmem2⟩
              rcases List.mem_map.mp hblock with ⟨name, hn, rfl⟩
              exact msg_notin_groupBlock c.temps c.fans name
                (fun he => hname (he ▸ hn)) hmem2
            · exact msg_notin_batteryBlock c.battery h7
          · rcases List.mem_singleton.mp h5 with he
            exact absurd he (by decide)
      · intro h
        exact absurd h hrhs
  · intro hne
    have hfalse : climateAllEmpty c = false := by
      cases hb : climateAllEmpty c with
      | false => rfl
      | true => exact absurd (hiff.mp hb) hne
    simp [get_hw_temperatures, hfalse, List.append_assoc]

/-- C2 witness: at the all-empty sensor snapshot the message is printed. -/
theorem c2_witness :
    "Cannot read temperature, fans or battery info"
      ∈ get_hw_temperatures ⟨[], [], none⟩ :=
  ((c2_climate_cannot_read ⟨[], [], none⟩).1 (by decide)).mpr ⟨rfl, rfl, rfl⟩
